import Mathlib

/-!
# Verification of the DCM1 volume/mute reconciliation engine

Shallow embedding of the volume reconciliation logic of
`custom_components/dcm1/media_player.py` (class `MixerZone`; `MixerGroup`
is textually identical in the modelled methods).

Python floats are modelled as rationals (`ℚ`); Python's builtin `round`
(banker's rounding, half to even) is modelled by `pythonRound`.
Device levels and the configured dB range are modelled as integers (`ℤ`).
-/

namespace DCM1

/-- Python's builtin `round` on a rational: round half to even. -/
def pythonRound (q : ℚ) : ℤ :=
  if q - (⌊q⌋ : ℚ) < 1/2 then ⌊q⌋
  else if 1/2 < q - (⌊q⌋ : ℚ) then ⌊q⌋ + 1
  else if ⌊q⌋ % 2 = 0 then ⌊q⌋ else ⌊q⌋ + 1

/-- A volume report from the device: a numeric level or the literal "mute". -/
inductive ReportLevel where
  | num (n : ℤ)
  | mute
deriving Repr, DecidableEq

/-- Models `level_int = 62 if level == "mute" else int(level)` (media_player.py:361). -/
def ReportLevel.toInt : ReportLevel → ℤ
  | .num n => n
  | .mute => 62

/-- Per-entity volume reconciliation state: the `_volume_level`,
`_pending_volume`, `_pending_raw_volume_level`, `_pending_volume_rejected_count`,
`_is_volume_muted`, `_raw_volume_level`, `_pre_mute_volume`,
`_pre_mute_raw_volume` and `_attr_volume_level` fields of `MixerZone`
(media_player.py:229-236). -/
structure EngineState where
  volume_level : Option ℚ
  pending_volume : Option ℚ
  pending_raw_volume_level : Option ℤ
  pending_volume_rejected_count : ℕ
  is_volume_muted : Bool
  raw_volume_level : Option ℤ
  pre_mute_volume : Option ℚ
  pre_mute_raw_volume : Option ℤ
  attr_volume_level : Option ℚ
deriving Repr, DecidableEq

/-- The state of a freshly constructed entity before any initial volume is
known (media_player.py:229-236 with `mixer.get_zone_volume_level` returning
`None`). -/
def initState : EngineState :=
  { volume_level := none
    pending_volume := none
    pending_raw_volume_level := none
    pending_volume_rejected_count := 0
    is_volume_muted := false
    raw_volume_level := none
    pre_mute_volume := none
    pre_mute_raw_volume := none
    attr_volume_level := none }

/-- Models `MixerZone.maybe_update_volume_level_from_device` (media_player.py:354-449),
parameterized by the configured `_volume_db_range` `d`. Returns the updated
state. The staleness check, the mute branch, the pending commit/override
branches and the hysteresis branch are translated clause by clause. -/
def maybe_update_volume_level_from_device (d : ℤ) (s : EngineState)
    (level : ReportLevel) : EngineState :=
  let level_int := level.toInt
  -- staleness check (lines 372-394)
  match s.pending_volume, s.pending_raw_volume_level with
  | some _, some prl =>
    if level_int ≠ prl then
      let cnt := s.pending_volume_rejected_count + 1
      if cnt ≥ 3 then
        -- give up: clear pending and fall through (lines 378-387)
        acceptResponse d
          { s with pending_volume := none
                   pending_raw_volume_level := none
                   pending_volume_rejected_count := 0 } level
      else
        -- reject: return, having only incremented the count (lines 388-394)
        { s with pending_volume_rejected_count := cnt }
    else
      acceptResponse d s level
  | _, _ => acceptResponse d s level
where
  /-- Lines 396-449: the response has been accepted. -/
  acceptResponse (d : ℤ) (s : EngineState) (level : ReportLevel) : EngineState :=
    match level with
    | .mute =>
      -- lines 397-400
      { s with is_volume_muted := true, raw_volume_level := some 62 }
    | .num n =>
      -- lines 401-448
      let s := { s with is_volume_muted := false, raw_volume_level := some n }
      let new_volume : ℚ := if d ≤ n then 0 else 1 - (n : ℚ) / (d : ℚ)
      match s.pending_volume with
      | some pv =>
        if s.pending_raw_volume_level = some n then
          -- commit pending (lines 417-423)
          { s with volume_level := some pv
                   pending_volume := none
                   pending_raw_volume_level := none
                   pending_volume_rejected_count := 0
                   attr_volume_level := some pv }
        else
          -- override pending with device state (lines 424-431)
          { s with volume_level := some new_volume
                   pending_volume := none
                   pending_raw_volume_level := none
                   pending_volume_rejected_count := 0
                   attr_volume_level := some new_volume }
      | none =>
        match s.volume_level with
        | some cv =>
          -- hysteresis (lines 436-444)
          let current_would_be : ℤ :=
            if cv = 0 then d else pythonRound ((d : ℚ) * (1 - cv))
          if current_would_be = n then
            { s with attr_volume_level := some cv }
          else
            { s with volume_level := some new_volume
                     attr_volume_level := some new_volume }
        | none =>
          -- lines 445-448
          { s with volume_level := some new_volume
                   attr_volume_level := some new_volume }

/-- Models `MixerZone.set_volume_level` (media_player.py:462-483). Returns the updated
state and the raw level sent to the device. -/
def set_volume_level (d : ℤ) (optimistic : Bool) (s : EngineState)
    (volume : ℚ) : EngineState × ℤ :=
  let level : ℤ :=
    if volume = 0 then d
    else max 0 (min d (pythonRound ((d : ℚ) * (1 - volume))))
  ({ s with pending_volume := some volume
            pending_raw_volume_level := some level
            pending_volume_rejected_count := 0
            attr_volume_level :=
              if optimistic then some volume else s.attr_volume_level },
   level)

/-- Models `MixerZone.volume_up` (media_player.py:485-489). Returns the updated state
and the raw level sent, if any. -/
def volume_up (d : ℤ) (optimistic : Bool) (s : EngineState) :
    EngineState × Option ℤ :=
  match s.volume_level with
  | some v =>
    let r := set_volume_level d optimistic s (min 1 (v + 1/20))
    (r.1, some r.2)
  | none => (s, none)

/-- Models `MixerZone.volume_down` (media_player.py:491-495). -/
def volume_down (d : ℤ) (optimistic : Bool) (s : EngineState) :
    EngineState × Option ℤ :=
  match s.volume_level with
  | some v =>
    let r := set_volume_level d optimistic s (max 0 (v - 1/20))
    (r.1, some r.2)
  | none => (s, none)

/-- Models `MixerZone.mute_volume` (media_player.py:509-529). Returns the updated
state and the raw level sent to the device. -/
def mute_volume (d : ℤ) (s : EngineState) (mute : Bool) : EngineState × ℤ :=
  if mute then
    ({ s with pre_mute_volume := s.volume_level
              pre_mute_raw_volume := s.raw_volume_level }, 62)
  else
    match s.pre_mute_raw_volume with
    | some l =>
      ({ s with pre_mute_volume := none, pre_mute_raw_volume := none }, l)
    | none =>
      match s.volume_level with
      | some cv =>
        if cv > 0 then (s, pythonRound ((d : ℚ) * (1 - cv)))
        else (s, d / 2)
      | none => (s, d / 2)

/-- The codec's encode direction, as specified: `dbRange` for volume 0,
otherwise `round(dbRange * (1 - v))` clamped to `[0, dbRange]`
(media_player.py:468-472). -/
def encode (d : ℤ) (v : ℚ) : ℤ :=
  if v = 0 then d else max 0 (min d (pythonRound ((d : ℚ) * (1 - v))))

/-- The codec's decode direction: `0` for levels at or beyond `dbRange`,
otherwise `1 - level/dbRange` (media_player.py:406-409). -/
def decode (d : ℤ) (l : ℤ) : ℚ :=
  if d ≤ l then 0 else 1 - (l : ℚ) / (d : ℚ)


/-- Models `self._enabled_line_inputs.get(source_id, False)`: dictionary lookup
with default `False`, the dictionary modelled as an association list. -/
def lookupEnabled (enabled : List (ℤ × Bool)) (i : ℤ) : Bool :=
  match enabled.find? (fun p => p.1 == i) with
  | some p => p.2
  | none => false

/-- Models `MixerZone._build_source_list` (media_player.py:318-341), the
catalogue `sources_by_id` modelled as an association list of id and name.
If no line-input data has been received (empty dictionary), all source names
are returned; otherwise sources with id 1..8 are kept only when enabled, and
all other sources are kept. -/
def build_source_list (enabled : List (ℤ × Bool))
    (catalogue : List (ℤ × String)) : List String :=
  if enabled.isEmpty then
    catalogue.map Prod.snd
  else
    catalogue.filterMap fun s =>
      if 1 ≤ s.1 ∧ s.1 ≤ 8 then
        if lookupEnabled enabled s.1 then some s.2 else none
      else some s.2

/-- The filtering rule as the specification words it: a source with id in the
fixed line-input band 1..8 is included only if its id is enabled; sources
outside that band are always included. Stated separately from
`build_source_list` so the two can be compared. -/
def sourceKeptSpec (enabled : List (ℤ × Bool)) (s : ℤ × String) : Bool :=
  if 1 ≤ s.1 ∧ s.1 ≤ 8 then lookupEnabled enabled s.1 else true

/-- The public operations on one entity: device volume reports, user volume
set, user mute/unmute, and volume step up/down. -/
inductive Op where
  | report (l : ReportLevel)
  | setVolume (v : ℚ)
  | setMute (b : Bool)
  | volUp
  | volDown
deriving Repr

/-- State transition of one entity under a public operation, with configured
dB range `d` and optimistic-volume flag `opt`. -/
def applyOp (d : ℤ) (opt : Bool) (s : EngineState) : Op → EngineState
  | .report l => maybe_update_volume_level_from_device d s l
  | .setVolume v => (set_volume_level d opt s v).1
  | .setMute b => (mute_volume d s b).1
  | .volUp => (volume_up d opt s).1
  | .volDown => (volume_down d opt s).1

/-- Report levels allowed by claim C8 as stated: an integer in `[0, 62]` or
the literal "mute". -/
def Op.levelOK : Op → Prop
  | .report (.num n) => 0 ≤ n ∧ n ≤ 62
  | _ => True

/-- Report levels with the numeric sentinel 62 excluded: an integer in
`[0, 61]` or the literal "mute". -/
def Op.levelOKStrict : Op → Prop
  | .report (.num n) => 0 ≤ n ∧ n ≤ 61
  | _ => True

/-- States reachable from the fresh-entity state by public operations whose
reports satisfy `ok`. -/
inductive Reachable (d : ℤ) (opt : Bool) (ok : Op → Prop) : EngineState → Prop
  | init : Reachable d opt ok initState
  | step {s : EngineState} (op : Op) :
      Reachable d opt ok s → ok op → Reachable d opt ok (applyOp d opt s op)

/-- Example state: a pending command for volume 0.5 at raw level 20
(dbRange 40), no rejections yet. -/
def exC1 : EngineState :=
  { initState with pending_volume := some (1/2), pending_raw_volume_level := some 20 }

/-- Example state: confirmed volume 0.51 (raw 20) with a pending command at
raw level 10 that has already been rejected twice. -/
def exC2cex : EngineState :=
  { volume_level := some (51/100)
    pending_volume := some (1/2)
    pending_raw_volume_level := some 10
    pending_volume_rejected_count := 2
    is_volume_muted := false
    raw_volume_level := some 20
    pre_mute_volume := none
    pre_mute_raw_volume := none
    attr_volume_level := some (51/100) }

/-- Example state: a pending command at raw level 10, twice rejected, no
confirmed volume yet. -/
def exC2 : EngineState :=
  { initState with pending_volume := some (1/2)
                   pending_raw_volume_level := some 10
                   pending_volume_rejected_count := 2 }

/-- Example state: confirmed volume 0.5 at raw level 20, idle. -/
def exC3 : EngineState :=
  { initState with volume_level := some (1/2)
                   raw_volume_level := some 20
                   attr_volume_level := some (1/2) }

/-- Example state: a pending command for volume 0.5 at raw level 20, no
rejections yet, last raw level 18. -/
def exC5 : EngineState :=
  { initState with pending_volume := some (1/2)
                   pending_raw_volume_level := some 20
                   raw_volume_level := some 18 }

/-- Example state: muted at raw level 62 with confirmed volume 0.75 and a
saved pre-mute raw level of 10. -/
def exC6 : EngineState :=
  { volume_level := some (3/4)
    pending_volume := none
    pending_raw_volume_level := none
    pending_volume_rejected_count := 0
    is_volume_muted := true
    raw_volume_level := some 62
    pre_mute_volume := some (3/4)
    pre_mute_raw_volume := some 10
    attr_volume_level := some (3/4) }

/-- Example state: confirmed volume 0.75 at raw level 10, idle. -/
def exC7 : EngineState :=
  { initState with volume_level := some (3/4)
                   raw_volume_level := some 10
                   attr_volume_level := some (3/4) }

/-- Example state: confirmed volume 0.5 at raw level 20, idle. -/
def exC9 : EngineState :=
  { initState with volume_level := some (1/2)
                   raw_volume_level := some 20
                   attr_volume_level := some (1/2) }

/-- Example catalogue for the source filter: line inputs 1..8 plus one
non-line source 9. -/
def exCatalogue : List (ℤ × String) :=
  [(1, "S1"), (2, "S2"), (3, "S3"), (4, "S4"), (5, "S5"), (6, "S6"),
   (7, "S7"), (8, "S8"), (9, "S9")]


/-! ## Supporting lemmas on rounding and the codec -/

theorem pythonRound_cases (q : ℚ) :
    pythonRound q = ⌊q⌋ ∨ pythonRound q = ⌊q⌋ + 1 := by
  unfold pythonRound
  split_ifs <;> simp

theorem pythonRound_half (q : ℚ) : |q - (pythonRound q : ℚ)| ≤ 1/2 := by
  have hf : (⌊q⌋ : ℚ) ≤ q := Int.floor_le q
  have hf1 : q < ⌊q⌋ + 1 := Int.lt_floor_add_one q
  unfold pythonRound
  split_ifs <;> rw [abs_le] <;> push_cast <;> constructor <;> linarith

theorem pythonRound_nearest (q : ℚ) (j : ℤ) :
    |q - (pythonRound q : ℚ)| ≤ |q - (j : ℚ)| := by
  by_cases hj : j = pythonRound q
  · rw [hj]
  · have h1 : |q - (pythonRound q : ℚ)| ≤ 1/2 := pythonRound_half q
    have hne : pythonRound q - j ≠ 0 := sub_ne_zero.mpr (Ne.symm hj)
    have hint : (1 : ℤ) ≤ |pythonRound q - j| := Int.one_le_abs hne
    have h2 : (1 : ℚ) ≤ |(pythonRound q : ℚ) - (j : ℚ)| := by
      rw [← Int.cast_sub, ← Int.cast_abs]
      exact_mod_cast hint
    have h3 : |(pythonRound q : ℚ) - (j : ℚ)| ≤
        |(pythonRound q : ℚ) - q| + |q - (j : ℚ)| := abs_sub_le _ _ _
    have h4 : |(pythonRound q : ℚ) - q| = |q - (pythonRound q : ℚ)| := abs_sub_comm _ _
    linarith

theorem pythonRound_nonneg (q : ℚ) (h : 0 ≤ q) : 0 ≤ pythonRound q := by
  have h0 : (0 : ℤ) ≤ ⌊q⌋ := Int.le_floor.mpr (by exact_mod_cast h)
  unfold pythonRound
  split_ifs <;> omega

theorem pythonRound_le_of_lt (q : ℚ) (m : ℤ) (h : q < (m : ℚ)) :
    pythonRound q ≤ m := by
  have h0 : ⌊q⌋ < m := Int.floor_lt.mpr (by exact_mod_cast h)
  unfold pythonRound
  split_ifs <;> omega

theorem encode_pos_eq (d : ℤ) (v : ℚ) (hd : 1 ≤ d) (h0 : 0 < v) (h1 : v ≤ 1) :
    encode d v = pythonRound ((d : ℚ) * (1 - v)) := by
  have hdq : (0 : ℚ) < (d : ℚ) := by exact_mod_cast (by omega : (0 : ℤ) < d)
  have hq0 : 0 ≤ (d : ℚ) * (1 - v) := mul_nonneg (le_of_lt hdq) (by linarith)
  have hqd : (d : ℚ) * (1 - v) < (d : ℚ) := by nlinarith
  have hr0 : 0 ≤ pythonRound ((d : ℚ) * (1 - v)) := pythonRound_nonneg _ hq0
  have hrd : pythonRound ((d : ℚ) * (1 - v)) ≤ d := pythonRound_le_of_lt _ _ hqd
  unfold encode
  rw [if_neg (ne_of_gt h0)]
  omega

theorem wouldBe_eq_encode (d : ℤ) (v : ℚ) (hd : 1 ≤ d) (h0 : 0 ≤ v) (h1 : v ≤ 1) :
    (if v = 0 then d else pythonRound ((d : ℚ) * (1 - v))) = encode d v := by
  by_cases hv : v = 0
  · simp [hv, encode]
  · rw [if_neg hv, encode_pos_eq d v hd (lt_of_le_of_ne h0 (Ne.symm hv)) h1]

theorem encode_bounds (d : ℤ) (v : ℚ) (hd : 1 ≤ d) :
    0 ≤ encode d v ∧ encode d v ≤ d := by
  unfold encode
  split_ifs with h
  · omega
  · omega


/-! ## Characterization lemmas for the report handler -/

theorem maybe_update_no_pending (d : ℤ) (s : EngineState) (level : ReportLevel)
    (hpv : s.pending_volume = none) :
    maybe_update_volume_level_from_device d s level =
      maybe_update_volume_level_from_device.acceptResponse d s level := by
  rcases s with ⟨cv, pv0, prl0, cnt, m, raw, pmv, pmr, av⟩
  cases hpv
  rfl

theorem maybe_update_match (d : ℤ) (s : EngineState) (level : ReportLevel)
    (pv : ℚ) (prl : ℤ)
    (hpv : s.pending_volume = some pv)
    (hpr : s.pending_raw_volume_level = some prl)
    (h : level.toInt = prl) :
    maybe_update_volume_level_from_device d s level =
      maybe_update_volume_level_from_device.acceptResponse d s level := by
  rcases s with ⟨cv, pv0, prl0, cnt, m, raw, pmv, pmr, av⟩
  cases hpv
  cases hpr
  simp only [maybe_update_volume_level_from_device, h]
  simp

theorem maybe_update_reject (d : ℤ) (s : EngineState) (level : ReportLevel)
    (pv : ℚ) (prl : ℤ)
    (hpv : s.pending_volume = some pv)
    (hpr : s.pending_raw_volume_level = some prl)
    (h : level.toInt ≠ prl)
    (hcnt : s.pending_volume_rejected_count + 1 < 3) :
    maybe_update_volume_level_from_device d s level =
      { s with pending_volume_rejected_count :=
                 s.pending_volume_rejected_count + 1 } := by
  rcases s with ⟨cv, pv0, prl0, cnt, m, raw, pmv, pmr, av⟩
  cases hpv
  cases hpr
  dsimp only at hcnt ⊢
  simp only [maybe_update_volume_level_from_device]
  rw [if_pos h, if_neg (show ¬ cnt + 1 ≥ 3 by omega)]

theorem maybe_update_giveup (d : ℤ) (s : EngineState) (level : ReportLevel)
    (pv : ℚ) (prl : ℤ)
    (hpv : s.pending_volume = some pv)
    (hpr : s.pending_raw_volume_level = some prl)
    (h : level.toInt ≠ prl)
    (hcnt : 3 ≤ s.pending_volume_rejected_count + 1) :
    maybe_update_volume_level_from_device d s level =
      maybe_update_volume_level_from_device.acceptResponse d
        { s with pending_volume := none
                 pending_raw_volume_level := none
                 pending_volume_rejected_count := 0 } level := by
  rcases s with ⟨cv, pv0, prl0, cnt, m, raw, pmv, pmr, av⟩
  cases hpv
  cases hpr
  dsimp only at hcnt ⊢
  simp only [maybe_update_volume_level_from_device]
  rw [if_pos h, if_pos (show cnt + 1 ≥ 3 by omega)]


theorem acceptResponse_mute (d : ℤ) (s : EngineState) :
    maybe_update_volume_level_from_device.acceptResponse d s .mute =
      { s with is_volume_muted := true, raw_volume_level := some 62 } := rfl

theorem acceptResponse_num_commit (d : ℤ) (s : EngineState) (n : ℤ) (pv : ℚ)
    (hpv : s.pending_volume = some pv)
    (hpr : s.pending_raw_volume_level = some n) :
    maybe_update_volume_level_from_device.acceptResponse d s (.num n) =
      { s with volume_level := some pv
               pending_volume := none
               pending_raw_volume_level := none
               pending_volume_rejected_count := 0
               is_volume_muted := false
               raw_volume_level := some n
               attr_volume_level := some pv } := by
  rcases s with ⟨cv, pv0, prl0, cnt, m, raw, pmv, pmr, av⟩
  cases hpv
  cases hpr
  simp [maybe_update_volume_level_from_device.acceptResponse]

theorem acceptResponse_num_override (d : ℤ) (s : EngineState) (n : ℤ) (pv : ℚ)
    (hpv : s.pending_volume = some pv)
    (hpr : s.pending_raw_volume_level ≠ some n) :
    maybe_update_volume_level_from_device.acceptResponse d s (.num n) =
      { s with volume_level := some (decode d n)
               pending_volume := none
               pending_raw_volume_level := none
               pending_volume_rejected_count := 0
               is_volume_muted := false
               raw_volume_level := some n
               attr_volume_level := some (decode d n) } := by
  rcases s with ⟨cv, pv0, prl0, cnt, m, raw, pmv, pmr, av⟩
  cases hpv
  dsimp only at hpr
  simp [maybe_update_volume_level_from_device.acceptResponse, hpr, decode]

theorem acceptResponse_num_hyst_keep (d : ℤ) (s : EngineState) (n : ℤ) (cv : ℚ)
    (hpv : s.pending_volume = none)
    (hcv : s.volume_level = some cv)
    (hw : (if cv = 0 then d else pythonRound ((d : ℚ) * (1 - cv))) = n) :
    maybe_update_volume_level_from_device.acceptResponse d s (.num n) =
      { s with is_volume_muted := false
               raw_volume_level := some n
               attr_volume_level := some cv } := by
  rcases s with ⟨cv0, pv0, prl0, cnt, m, raw, pmv, pmr, av⟩
  cases hpv
  cases hcv
  simp [maybe_update_volume_level_from_device.acceptResponse, hw]

theorem acceptResponse_num_hyst_new (d : ℤ) (s : EngineState) (n : ℤ) (cv : ℚ)
    (hpv : s.pending_volume = none)
    (hcv : s.volume_level = some cv)
    (hw : (if cv = 0 then d else pythonRound ((d : ℚ) * (1 - cv))) ≠ n) :
    maybe_update_volume_level_from_device.acceptResponse d s (.num n) =
      { s with volume_level := some (decode d n)
               is_volume_muted := false
               raw_volume_level := some n
               attr_volume_level := some (decode d n) } := by
  rcases s with ⟨cv0, pv0, prl0, cnt, m, raw, pmv, pmr, av⟩
  cases hpv
  cases hcv
  simp [maybe_update_volume_level_from_device.acceptResponse, hw, decode]

theorem acceptResponse_num_fresh (d : ℤ) (s : EngineState) (n : ℤ)
    (hpv : s.pending_volume = none)
    (hcv : s.volume_level = none) :
    maybe_update_volume_level_from_device.acceptResponse d s (.num n) =
      { s with volume_level := some (decode d n)
               is_volume_muted := false
               raw_volume_level := some n
               attr_volume_level := some (decode d n) } := by
  rcases s with ⟨cv0, pv0, prl0, cnt, m, raw, pmv, pmr, av⟩
  cases hpv
  cases hcv
  simp [maybe_update_volume_level_from_device.acceptResponse, decode]


theorem maybe_update_no_pending_raw (d : ℤ) (s : EngineState) (level : ReportLevel)
    (hpr : s.pending_raw_volume_level = none) :
    maybe_update_volume_level_from_device d s level =
      maybe_update_volume_level_from_device.acceptResponse d s level := by
  rcases s with ⟨cv, pv0, prl0, cnt, m, raw, pmv, pmr, av⟩
  cases hpr
  cases pv0 <;> rfl

/-! ## Claim theorems -/

/-- C1: with a pending command `(pv, prl)` and a numeric report `L`: if
`L = prl` the report commits — `confirmedVolume` becomes exactly the requested
volume `pv` (not `decode L`), `pending` is cleared and the rejection count is
reset to 0; if `L ≠ prl` and the incremented rejection count is still below 3,
the report is rejected — the state is unchanged except that the rejection
count is incremented by 1 (so `confirmedVolume`, `confirmedRawLevel`, `muted`
and the pending command's requested volume and raw level are all untouched). -/
theorem C1_pending_commit_or_reject (d : ℤ) (s : EngineState) (pv : ℚ)
    (prl L : ℤ)
    (hpv : s.pending_volume = some pv)
    (hpr : s.pending_raw_volume_level = some prl) :
    (L = prl →
      maybe_update_volume_level_from_device d s (.num L) =
        { s with volume_level := some pv
                 pending_volume := none
                 pending_raw_volume_level := none
                 pending_volume_rejected_count := 0
                 is_volume_muted := false
                 raw_volume_level := some L
                 attr_volume_level := some pv }) ∧
    (L ≠ prl → s.pending_volume_rejected_count + 1 < 3 →
      maybe_update_volume_level_from_device d s (.num L) =
        { s with pending_volume_rejected_count :=
                   s.pending_volume_rejected_count + 1 }) := by
  constructor
  · intro hL
    subst hL
    rw [maybe_update_match d s (.num L) pv L hpv hpr rfl,
      acceptResponse_num_commit d s L pv hpv hpr]
  · intro hL hcnt
    exact maybe_update_reject d s (.num L) pv prl hpv hpr hL hcnt

/-- Witness for C1: with dbRange 40 and pending command (0.5, raw 20), the
report 20 commits volume 0.5, while the report 18 is rejected with the
rejection count going from 0 to 1. -/
theorem C1_witness :
    maybe_update_volume_level_from_device 40 exC1 (.num 20) =
      { exC1 with volume_level := some (1/2)
                  pending_volume := none
                  pending_raw_volume_level := none
                  pending_volume_rejected_count := 0
                  is_volume_muted := false
                  raw_volume_level := some 20
                  attr_volume_level := some (1/2) } ∧
    maybe_update_volume_level_from_device 40 exC1 (.num 18) =
      { exC1 with pending_volume_rejected_count := 1 } :=
  ⟨(C1_pending_commit_or_reject 40 exC1 (1/2) 20 20 rfl rfl).1 rfl,
   (C1_pending_commit_or_reject 40 exC1 (1/2) 20 18 rfl rfl).2
     (by decide) (by decide)⟩

/-- C3: with no pending command and a confirmed volume `v` (in `[0,1]`, with
dbRange at least 1), a numeric report `L` leaves `confirmedVolume` exactly
unchanged when `encode v = L` (hysteresis), and sets it to `decode L`
otherwise. -/
theorem C3_hysteresis (d : ℤ) (s : EngineState) (v : ℚ) (L : ℤ)
    (hd : 1 ≤ d)
    (hpv : s.pending_volume = none)
    (hcv : s.volume_level = some v) (h0 : 0 ≤ v) (h1 : v ≤ 1) :
    (encode d v = L →
      (maybe_update_volume_level_from_device d s (.num L)).volume_level =
        some v) ∧
    (encode d v ≠ L →
      (maybe_update_volume_level_from_device d s (.num L)).volume_level =
        some (decode d L)) := by
  rw [maybe_update_no_pending d s (.num L) hpv]
  constructor
  · intro hL
    rw [acceptResponse_num_hyst_keep d s L v hpv hcv
      (by rw [wouldBe_eq_encode d v hd h0 h1]; exact hL)]
    exact hcv
  · intro hL
    rw [acceptResponse_num_hyst_new d s L v hpv hcv
      (by rw [wouldBe_eq_encode d v hd h0 h1]; exact hL)]

/-- Witness for C3: confirmed volume 0.5 at dbRange 40 stays exactly 0.5 on a
report of 20 (its own encoding), and becomes `decode 40 18 = 0.55` on a
report of 18. -/
theorem C3_witness :
    (maybe_update_volume_level_from_device 40 exC3 (.num 20)).volume_level =
      some (1/2) ∧
    (maybe_update_volume_level_from_device 40 exC3 (.num 18)).volume_level =
      some (decode 40 18) :=
  ⟨(C3_hysteresis 40 exC3 (1/2) 20 (by decide) rfl rfl (by norm_num)
      (by norm_num)).1 (by norm_num [encode, pythonRound]),
   (C3_hysteresis 40 exC3 (1/2) 18 (by decide) rfl rfl (by norm_num)
      (by norm_num)).2 (by norm_num [encode, pythonRound])⟩

/-- C7: with no pending command, a "mute" report sets `muted = true` and
`confirmedRawLevel = 62` and changes nothing else — in particular
`confirmedVolume` is left unchanged. -/
theorem C7_mute_report_idle (d : ℤ) (s : EngineState)
    (hpv : s.pending_volume = none) :
    maybe_update_volume_level_from_device d s .mute =
      { s with is_volume_muted := true, raw_volume_level := some 62 } := by
  rw [maybe_update_no_pending d s .mute hpv, acceptResponse_mute]

/-- Witness for C7: at confirmed volume 0.75 (raw 10), a "mute" report flips
only the mute flag and the raw level; the confirmed volume stays 0.75. -/
theorem C7_witness :
    maybe_update_volume_level_from_device 40 exC7 .mute =
      { exC7 with is_volume_muted := true, raw_volume_level := some 62 } ∧
    (maybe_update_volume_level_from_device 40 exC7 .mute).volume_level =
      some (3/4) :=
  ⟨C7_mute_report_idle 40 exC7 rfl,
   by rw [C7_mute_report_idle 40 exC7 rfl]; rfl⟩


/-- C4: with dbRange 40, for every volume `v` in `[0,1]` whose encoding lands
strictly inside the level range (in `1..39`, i.e. not clamped to the boundary
levels 0 or 40), `decode (encode v)` is `v` rounded to the nearest `1/40`
step: it is an integer multiple of `1/40`, and it is at least as close to `v`
as every multiple of `1/40`. -/
theorem C4_codec_round_trip (v : ℚ) (h0 : 0 ≤ v) (h1 : v ≤ 1)
    (hlo : 1 ≤ encode 40 v) (hhi : encode 40 v ≤ 39) :
    (∃ m : ℤ, decode 40 (encode 40 v) = (m : ℚ) / 40) ∧
    (∀ k : ℤ, |decode 40 (encode 40 v) - v| ≤ |(k : ℚ) / 40 - v|) := by
  have hv : v ≠ 0 := by
    intro hv0
    rw [hv0] at hhi
    norm_num [encode] at hhi
  have hvpos : 0 < v := lt_of_le_of_ne h0 (Ne.symm hv)
  have henc : encode 40 v = pythonRound ((40 : ℚ) * (1 - v)) :=
    encode_pos_eq 40 v (by norm_num) hvpos h1
  have hlt : ¬ ((40 : ℤ) ≤ encode 40 v) := by omega
  have hdec : decode 40 (encode 40 v) = 1 - ((encode 40 v : ℤ) : ℚ) / 40 := by
    unfold decode
    rw [if_neg hlt]
    norm_num
  constructor
  · refine ⟨40 - encode 40 v, ?_⟩
    rw [hdec]
    push_cast
    ring
  · intro k
    have h1eq : decode 40 (encode 40 v) - v =
        ((40 : ℚ) * (1 - v) - (pythonRound ((40 : ℚ) * (1 - v)) : ℚ)) / 40 := by
      rw [hdec, henc]
      ring
    have h2eq : (k : ℚ) / 40 - v =
        ((40 : ℚ) * (1 - v) - (((40 - k : ℤ)) : ℚ)) / 40 := by
      push_cast
      ring_nf
    rw [h1eq, h2eq, abs_div, abs_div]
    rw [show |(40 : ℚ)| = 40 by norm_num]
    exact (div_le_div_iff_of_pos_right (by norm_num)).mpr
      (pythonRound_nearest ((40 : ℚ) * (1 - v)) (40 - k))

/-- Witness for C4 at `v = 0.55`: the encoding is 18, inside `1..39`, the
round trip gives exactly `22/40 = 0.55`, and it is at least as close to `v`
as the step `21/40`. -/
theorem C4_witness :
    decode 40 (encode 40 (11/20)) = ((22 : ℤ) : ℚ) / 40 ∧
    |decode 40 (encode 40 (11/20)) - 11/20| ≤ |((21 : ℤ) : ℚ) / 40 - 11/20| := by
  have henc : encode 40 (11/20 : ℚ) = 18 := by
    norm_num [encode, pythonRound]
  constructor
  · rw [henc]
    norm_num [decode]
  · exact (C4_codec_round_trip (11/20) (by norm_num) (by norm_num)
      (by rw [henc]; norm_num) (by rw [henc]; norm_num)).2 21


/-- C2 counterexample: dbRange 40, confirmed volume 0.51 (whose encoding is
20), pending command at raw level 10 already rejected twice. The third
non-matching report, 20, clears pending and adopts raw level 20 — but
`confirmedVolume` stays 0.51 (the hysteresis branch runs because pending was
cleared before the fall-through), and is NOT set to `decode 20 = 0.5` as the
claim states. -/
theorem C2_counterexample :
    (maybe_update_volume_level_from_device 40 exC2cex (.num 20)).pending_volume
        = none ∧
    (maybe_update_volume_level_from_device 40 exC2cex (.num 20)).raw_volume_level
        = some 20 ∧
    (maybe_update_volume_level_from_device 40 exC2cex (.num 20)).volume_level
        ≠ some (decode 40 20) := by
  have hstep : maybe_update_volume_level_from_device 40 exC2cex (.num 20) =
      { exC2cex with
          pending_volume := none
          pending_raw_volume_level := none
          pending_volume_rejected_count := 0
          is_volume_muted := false
          raw_volume_level := some 20
          attr_volume_level := some (51/100) } := by
    rw [maybe_update_giveup 40 exC2cex (.num 20) (1/2) 10 rfl rfl
      (by decide) (by decide)]
    rw [acceptResponse_num_hyst_keep 40 _ 20 (51/100) rfl rfl
      (by norm_num [pythonRound])]
  rw [hstep]
  refine ⟨rfl, rfl, ?_⟩
  norm_num [exC2cex, decode]

/-- C2 (amended): with a pending command `(pv, prl)`, a numeric report
`L ≠ prl` arriving when the rejection count is already at least 2 (so the
incremented count reaches 3) clears pending, resets the count, and adopts the
received level: `muted = false`, `confirmedRawLevel = L`, and
`confirmedVolume = decode L` — EXCEPT when the previous `confirmedVolume` is
set and its encoding equals `L`, in which case `confirmedVolume` is kept
unchanged, because after pending is cleared the report flows through the
no-pending hysteresis branch. -/
theorem C2_giveup_adopts_level (d : ℤ) (s : EngineState) (pv : ℚ) (prl L : ℤ)
    (hd : 1 ≤ d)
    (hpv : s.pending_volume = some pv)
    (hpr : s.pending_raw_volume_level = some prl)
    (hL : L ≠ prl)
    (hcnt : 2 ≤ s.pending_volume_rejected_count)
    (hcv : ∀ v, s.volume_level = some v → 0 ≤ v ∧ v ≤ 1) :
    (maybe_update_volume_level_from_device d s (.num L)).pending_volume
        = none ∧
    (maybe_update_volume_level_from_device d s (.num L)).pending_raw_volume_level
        = none ∧
    (maybe_update_volume_level_from_device d s (.num L)).pending_volume_rejected_count
        = 0 ∧
    (maybe_update_volume_level_from_device d s (.num L)).is_volume_muted
        = false ∧
    (maybe_update_volume_level_from_device d s (.num L)).raw_volume_level
        = some L ∧
    (maybe_update_volume_level_from_device d s (.num L)).volume_level
        = some (match s.volume_level with
                | some cv => if encode d cv = L then cv else decode d L
                | none => decode d L) := by
  obtain ⟨cv0, pv0, prl0, cnt0, m0, raw0, pmv0, pmr0, av0⟩ := s
  cases hpv
  cases hpr
  dsimp only at hcnt hcv ⊢
  rw [maybe_update_giveup d
    ⟨cv0, some pv, some prl, cnt0, m0, raw0, pmv0, pmr0, av0⟩ (.num L)
    pv prl rfl rfl hL (by dsimp only; omega)]
  rcases cv0 with _ | cv
  · exact ⟨rfl, rfl, rfl, rfl, rfl, rfl⟩
  · obtain ⟨hb0, hb1⟩ := hcv cv rfl
    have hw : (if cv = 0 then d else pythonRound ((d : ℚ) * (1 - cv)))
        = encode d cv := wouldBe_eq_encode d cv hd hb0 hb1
    simp only [maybe_update_volume_level_from_device.acceptResponse]
    rw [hw]
    by_cases he : encode d cv = L
    · rw [if_pos he]
      simp [he]
    · rw [if_neg he]
      simp [he, decode]

/-- Witness for C2 (amended): pending command at raw level 10 with two prior
rejections and no confirmed volume; a third non-matching report of 18 clears
pending and adopts `decode 18 = 0.55`. -/
theorem C2_witness :
    (maybe_update_volume_level_from_device 40 exC2 (.num 18)).pending_volume
        = none ∧
    (maybe_update_volume_level_from_device 40 exC2 (.num 18)).raw_volume_level
        = some 18 ∧
    (maybe_update_volume_level_from_device 40 exC2 (.num 18)).volume_level
        = some (decode 40 18) := by
  have h := C2_giveup_adopts_level 40 exC2 (1/2) 10 18 (by decide) rfl rfl
    (by decide) (by decide) (fun v hv => Option.noConfusion hv)
  exact ⟨h.1, h.2.2.2.2.1, h.2.2.2.2.2⟩


/-- C5 counterexample: with a pending command (0.5, raw 20, no rejections yet),
a "mute" report is NOT processed: the mute flag stays false, the raw level
stays 18, and the rejection count is incremented from 0 to 1 — contradicting
the claim that the report bypasses the staleness check, sets `muted = true`
and `confirmedRawLevel = 62`, and leaves the rejection count alone. -/
theorem C5_counterexample :
    (maybe_update_volume_level_from_device 40 exC5 .mute).is_volume_muted
        = false ∧
    (maybe_update_volume_level_from_device 40 exC5 .mute).raw_volume_level
        = some 18 ∧
    (maybe_update_volume_level_from_device 40 exC5 .mute).pending_volume_rejected_count
        = 1 := by
  rw [maybe_update_reject 40 exC5 .mute (1/2) 20 rfl rfl (by decide) (by decide)]
  exact ⟨rfl, rfl, rfl⟩

/-- C5 (amended): a "mute" report is parsed to raw level 62 BEFORE the
staleness check and is subject to it. With a pending command whose requested
raw level is not 62 (always the case for levels produced by `encode`, which
are at most dbRange ≤ 61): if the incremented rejection count is below 3 the
mute report is rejected — the only change is the incremented count; once it
reaches 3, pending is cleared, the count resets, and the mute is applied
(`muted = true`, `confirmedRawLevel = 62`, `confirmedVolume` untouched). -/
theorem C5_mute_staleness (d : ℤ) (s : EngineState) (pv : ℚ) (prl : ℤ)
    (hpv : s.pending_volume = some pv)
    (hpr : s.pending_raw_volume_level = some prl)
    (h62 : prl ≠ 62) :
    (s.pending_volume_rejected_count + 1 < 3 →
      maybe_update_volume_level_from_device d s .mute =
        { s with pending_volume_rejected_count :=
                   s.pending_volume_rejected_count + 1 }) ∧
    (3 ≤ s.pending_volume_rejected_count + 1 →
      maybe_update_volume_level_from_device d s .mute =
        { s with pending_volume := none
                 pending_raw_volume_level := none
                 pending_volume_rejected_count := 0
                 is_volume_muted := true
                 raw_volume_level := some 62 }) := by
  have hne : ReportLevel.mute.toInt ≠ prl := fun h => h62 h.symm
  constructor
  · intro hcnt
    exact maybe_update_reject d s .mute pv prl hpv hpr hne hcnt
  · intro hcnt
    rw [maybe_update_giveup d s .mute pv prl hpv hpr hne hcnt,
      acceptResponse_mute]

/-- Witness for C5 (amended): at the state of the counterexample (rejection
count 0), the mute report only increments the count. -/
theorem C5_witness :
    maybe_update_volume_level_from_device 40 exC5 .mute =
      { exC5 with pending_volume_rejected_count := 1 } :=
  (C5_mute_staleness 40 exC5 (1/2) 20 rfl rfl (by decide)).1 (by decide)


/-- C6 counterexample: muted at raw 62 with saved pre-mute raw level 10,
no pending command. `mute_volume false` emits the restore level 10 directly
to the device, but no pending command is created — contradicting the claim
that the restore level is issued through the normal `issue()` path so that a
pending command with that requested raw level exists afterwards. -/
theorem C6_counterexample :
    (mute_volume 40 exC6 false).2 = 10 ∧
    (mute_volume 40 exC6 false).1.pending_volume = none ∧
    (mute_volume 40 exC6 false).1.pending_raw_volume_level = none :=
  ⟨rfl, rfl, rfl⟩

/-- C6 (amended): `mute_volume false` computes the restore level exactly as
the claim describes — the saved pre-mute raw level if present, else the
encoding of the confirmed volume if positive, else `dbRange / 2` — but sends
it directly to the device, bypassing the `issue()` path: the pending fields
are left exactly as they were (no pending command is created), and the saved
pre-mute raw level is cleared. -/
theorem C6_unmute_direct (d : ℤ) (s : EngineState) (hd : 1 ≤ d)
    (hcv : ∀ v, s.volume_level = some v → 0 ≤ v ∧ v ≤ 1) :
    (mute_volume d s false).2 =
      (match s.pre_mute_raw_volume with
       | some l => l
       | none =>
         match s.volume_level with
         | some cv => if cv > 0 then encode d cv else d / 2
         | none => d / 2) ∧
    (mute_volume d s false).1.pending_volume = s.pending_volume ∧
    (mute_volume d s false).1.pending_raw_volume_level
        = s.pending_raw_volume_level ∧
    (mute_volume d s false).1.pending_volume_rejected_count
        = s.pending_volume_rejected_count ∧
    (mute_volume d s false).1.pre_mute_raw_volume = none := by
  obtain ⟨cv0, pv0, prl0, cnt0, m0, raw0, pmv0, pmr0, av0⟩ := s
  dsimp only at hcv ⊢
  rcases pmr0 with _ | l
  · rcases cv0 with _ | cv
    · exact ⟨rfl, rfl, rfl, rfl, rfl⟩
    · obtain ⟨hb0, hb1⟩ := hcv cv rfl
      simp only [mute_volume]
      rw [if_neg Bool.false_ne_true]
      by_cases hpos : cv > 0
      · rw [if_pos hpos, if_pos hpos]
        exact ⟨(encode_pos_eq d cv hd hpos hb1).symm, rfl, rfl, rfl, rfl⟩
      · rw [if_neg hpos, if_neg hpos]
        exact ⟨rfl, rfl, rfl, rfl, rfl⟩
  · exact ⟨rfl, rfl, rfl, rfl, rfl⟩

/-- Witness for C6 (amended) at the counterexample state: the emitted restore
level is the saved pre-mute raw level 10, pending stays empty, and the saved
level is cleared. -/
theorem C6_witness :
    (mute_volume 40 exC6 false).2 = 10 ∧
    (mute_volume 40 exC6 false).1.pending_volume = none ∧
    (mute_volume 40 exC6 false).1.pre_mute_raw_volume = none := by
  have h := C6_unmute_direct 40 exC6 (by decide) (by
    intro v hv
    injection hv with h2
    constructor <;> rw [← h2] <;> norm_num)
  exact ⟨h.1, h.2.1, h.2.2.2.2⟩


theorem acceptResponse_num_effect (d : ℤ) (t : EngineState) (n : ℤ) :
    (maybe_update_volume_level_from_device.acceptResponse d t (.num n)).raw_volume_level
        = some n ∧
    (maybe_update_volume_level_from_device.acceptResponse d t (.num n)).is_volume_muted
        = false := by
  rcases t with ⟨cv, pv0, prl0, cnt, m, raw, pmv, pmr, av⟩
  simp only [maybe_update_volume_level_from_device.acceptResponse]
  cases pv0 <;> cases cv <;> (try dsimp only) <;>
    first
      | (split_ifs <;> exact ⟨rfl, rfl⟩)
      | exact ⟨rfl, rfl⟩

theorem accept_invariant (d : ℤ) (t : EngineState) (l : ReportLevel)
    (hl : Op.levelOKStrict (.report l)) :
    ((maybe_update_volume_level_from_device.acceptResponse d t l).raw_volume_level
        = some 62 ↔
     (maybe_update_volume_level_from_device.acceptResponse d t l).is_volume_muted
        = true) := by
  cases l with
  | mute =>
    rw [acceptResponse_mute]
    simp
  | num n =>
    have hn : 0 ≤ n ∧ n ≤ 61 := hl
    obtain ⟨h1, h2⟩ := acceptResponse_num_effect d t n
    rw [h1, h2]
    constructor
    · intro h
      injection h with h3
      omega
    · intro h
      exact absurd h Bool.false_ne_true

theorem set_volume_level_frame (d : ℤ) (opt : Bool) (s : EngineState) (v : ℚ) :
    (set_volume_level d opt s v).1.raw_volume_level = s.raw_volume_level ∧
    (set_volume_level d opt s v).1.is_volume_muted = s.is_volume_muted :=
  ⟨rfl, rfl⟩

theorem mute_volume_frame (d : ℤ) (s : EngineState) (b : Bool) :
    (mute_volume d s b).1.raw_volume_level = s.raw_volume_level ∧
    (mute_volume d s b).1.is_volume_muted = s.is_volume_muted := by
  rcases s with ⟨cv, pv0, prl0, cnt, m, raw, pmv, pmr, av⟩
  cases b
  · simp only [mute_volume]
    rw [if_neg Bool.false_ne_true]
    cases pmr <;> cases cv <;> (try dsimp only) <;>
      first
        | (split_ifs <;> exact ⟨rfl, rfl⟩)
        | exact ⟨rfl, rfl⟩
  · exact ⟨rfl, rfl⟩

theorem volume_up_frame (d : ℤ) (opt : Bool) (s : EngineState) :
    (volume_up d opt s).1.raw_volume_level = s.raw_volume_level ∧
    (volume_up d opt s).1.is_volume_muted = s.is_volume_muted := by
  rcases s with ⟨cv, pv0, prl0, cnt, m, raw, pmv, pmr, av⟩
  cases cv <;> exact ⟨rfl, rfl⟩

theorem volume_down_frame (d : ℤ) (opt : Bool) (s : EngineState) :
    (volume_down d opt s).1.raw_volume_level = s.raw_volume_level ∧
    (volume_down d opt s).1.is_volume_muted = s.is_volume_muted := by
  rcases s with ⟨cv, pv0, prl0, cnt, m, raw, pmv, pmr, av⟩
  cases cv <;> exact ⟨rfl, rfl⟩

/-- C8 counterexample: under the claim's own operation alphabet (numeric
report levels in `[0, 62]` or "mute"), the state reached from the initial
state by the single NUMERIC report 62 violates the invariant: its raw level
is 62 but `muted` is false, because the mute branch is keyed on the literal
"mute", not on the parsed value 62. -/
theorem C8_counterexample :
    Reachable 40 true Op.levelOK
      (maybe_update_volume_level_from_device 40 initState (.num 62)) ∧
    (maybe_update_volume_level_from_device 40 initState
        (.num 62)).raw_volume_level = some 62 ∧
    (maybe_update_volume_level_from_device 40 initState
        (.num 62)).is_volume_muted = false := by
  refine ⟨?_, rfl, rfl⟩
  exact Reachable.step (Op.report (.num 62)) Reachable.init
    ⟨by norm_num, by norm_num⟩

/-- C8 (amended): with numeric report levels restricted to `[0, 61]` (the
numeric sentinel 62 excluded; "mute" reports remain allowed), every state
reachable from the initial state by the public operations satisfies the
invariant: `confirmedRawLevel = 62` iff `muted = true`. -/
theorem C8_mute_invariant (d : ℤ) (opt : Bool) (s : EngineState)
    (hs : Reachable d opt Op.levelOKStrict s) :
    s.raw_volume_level = some 62 ↔ s.is_volume_muted = true := by
  induction hs with
  | init => simp [initState]
  | @step t op hr hok ih =>
    cases op with
    | report l =>
      dsimp only [applyOp]
      rcases hpv : t.pending_volume with _ | pv
      · rw [maybe_update_no_pending d t l hpv]
        exact accept_invariant d t l hok
      · rcases hpr : t.pending_raw_volume_level with _ | prl
        · rw [maybe_update_no_pending_raw d t l hpr]
          exact accept_invariant d t l hok
        · by_cases hm : l.toInt = prl
          · rw [maybe_update_match d t l pv prl hpv hpr hm]
            exact accept_invariant d t l hok
          · by_cases hc : t.pending_volume_rejected_count + 1 < 3
            · rw [maybe_update_reject d t l pv prl hpv hpr hm hc]
              exact ih
            · rw [maybe_update_giveup d t l pv prl hpv hpr hm (by omega)]
              exact accept_invariant d _ l hok
    | setVolume v =>
      dsimp only [applyOp]
      rw [(set_volume_level_frame d opt t v).1, (set_volume_level_frame d opt t v).2]
      exact ih
    | setMute b =>
      dsimp only [applyOp]
      rw [(mute_volume_frame d t b).1, (mute_volume_frame d t b).2]
      exact ih
    | volUp =>
      dsimp only [applyOp]
      rw [(volume_up_frame d opt t).1, (volume_up_frame d opt t).2]
      exact ih
    | volDown =>
      dsimp only [applyOp]
      rw [(volume_down_frame d opt t).1, (volume_down_frame d opt t).2]
      exact ih

/-- Witness for C8 (amended): the state reached by a single "mute" report
from the initial state satisfies the invariant (both sides hold). -/
theorem C8_witness :
    ((maybe_update_volume_level_from_device 40 initState .mute).raw_volume_level
        = some 62 ↔
     (maybe_update_volume_level_from_device 40 initState .mute).is_volume_muted
        = true) :=
  C8_mute_invariant 40 true _
    (Reachable.step (Op.report .mute) Reachable.init trivial)


/-- C9: the code contains no domain check on numeric report levels, so
out-of-domain reports are NOT discarded. At the failing input — no pending
command, confirmed volume 0.5 (raw 20), dbRange 40 — a report of 100 (above
the sentinel 62) sets `confirmedRawLevel = 100` and `confirmedVolume = 0.0`,
and a report of -5 sets `confirmedRawLevel = -5` and `confirmedVolume = 9/8`,
a value outside the valid volume range [0,1]; the claim (and the spec's error
handling section) requires both fields to be left unchanged. -/
theorem C9_out_of_domain_mutates :
    (maybe_update_volume_level_from_device 40 exC9 (.num 100)).raw_volume_level
        = some 100 ∧
    (maybe_update_volume_level_from_device 40 exC9 (.num 100)).volume_level
        = some 0 ∧
    (maybe_update_volume_level_from_device 40 exC9 (.num (-5))).raw_volume_level
        = some (-5) ∧
    (maybe_update_volume_level_from_device 40 exC9 (.num (-5))).volume_level
        = some (9/8) := by
  rw [maybe_update_no_pending 40 exC9 (.num 100) rfl,
    acceptResponse_num_hyst_new 40 exC9 100 (1/2) rfl rfl
      (by norm_num [pythonRound]),
    maybe_update_no_pending 40 exC9 (.num (-5)) rfl,
    acceptResponse_num_hyst_new 40 exC9 (-5) (1/2) rfl rfl
      (by norm_num [pythonRound])]
  refine ⟨rfl, ?_, rfl, ?_⟩
  · norm_num [decode]
  · norm_num [decode]

/-- C10: whenever line-input data has been received (the enabled-inputs
dictionary is non-empty), the built source list consists of exactly the names
of the catalogue entries kept by the specified rule — a source with id in the
line-input band 1..8 is kept iff its id is enabled, and every source outside
that band is kept; when no data has been received (empty dictionary), every
catalogue entry's name is listed. -/
theorem C10_source_filter (enabled : List (ℤ × Bool))
    (catalogue : List (ℤ × String)) :
    (enabled ≠ [] →
      build_source_list enabled catalogue =
        (catalogue.filter (sourceKeptSpec enabled)).map Prod.snd) ∧
    (enabled = [] →
      build_source_list enabled catalogue = catalogue.map Prod.snd) := by
  constructor
  · intro h
    unfold build_source_list
    rw [if_neg (by simp [h])]
    induction catalogue with
    | nil => rfl
    | cons hd tl ih =>
      simp only [List.filterMap_cons, List.filter_cons, sourceKeptSpec]
      split_ifs with h1 h2 <;> simp_all
  · intro h
    subst h
    rfl

/-- Witness for C10: the claim's example — catalogue 1..9 with enabled inputs
1 and 3 yields exactly the sources 1, 3 and 9. -/
theorem C10_witness :
    build_source_list [(1, true), (3, true)] exCatalogue
      = ["S1", "S3", "S9"] := by
  rw [(C10_source_filter [(1, true), (3, true)] exCatalogue).1 (by decide)]
  rfl

end DCM1
